import Mathlib

/-!
Shallow embedding of `src/Plugin/CppApi/source/CoordinateConversionOptions.cpp`
(Esri ArcGIS Runtime Toolkit, CoordinateConversionOptions).

The class is an observable record of formatting preferences: eight properties,
each with a getter, an unconditional setter that emits a per-property change
signal, two enum/string conversion helpers, a fixed list of type names, and
four static QML list-binding callbacks that delegate to an external controller.

Machine integers (`int`) are modelled as `Int`; `QString` as `String`;
signal emission is modelled by the setter returning the new state together
with the list of signals emitted during the call.
-/

namespace Toolkit

/-- Enumeration of coordinate types, from the `CoordinateType` enum
(declaration order as documented in the source: Gars, GeoRef, LatLon,
Mgrs, Usng, Utm). -/
inductive CoordinateType where
  | Gars
  | GeoRef
  | LatLon
  | Mgrs
  | Usng
  | Utm
deriving DecidableEq

/-- Enumeration `GarsConversionMode` from the source. -/
inductive GarsConversionMode where
  | LowerLeft
  | Center
deriving DecidableEq

/-- Enumeration `MgrsConversionMode` from the source. -/
inductive MgrsConversionMode where
  | Automatic
  | New180InZone01
  | New180InZone60
  | Old180InZone01
  | Old180InZone60
deriving DecidableEq

/-- Enumeration `UtmConversionMode` from the source. -/
inductive UtmConversionMode where
  | LatitudeBandIndicators
  | NorthSouthIndicators
deriving DecidableEq

/-- Enumeration `LatitudeLongitudeFormat` from the source. -/
inductive LatitudeLongitudeFormat where
  | DecimalDegrees
  | DegreesDecimalMinutes
  | DegreesMinutesSeconds
deriving DecidableEq

/-- The Qt signals this class can emit; each setter emits exactly the
signal named after its property (`emit xChanged()` in the source). -/
inductive Signal where
  | outputModeChanged
  | nameChanged
  | addSpacesChanged
  | precisionChanged
  | decimalPlacesChanged
  | mgrsConversionModeChanged
  | latLonFormatChanged
  | utmConversionModeChanged
deriving DecidableEq

/-- The member fields of `CoordinateConversionOptions` (names taken from
the member variables used in the source: `m_outputMode`, `m_name`, ...). -/
structure CoordinateConversionOptions where
  m_outputMode : CoordinateType
  m_name : String
  m_addSpaces : Bool
  m_precision : Int
  m_decimalPlaces : Int
  m_mgrsConversionMode : MgrsConversionMode
  m_latLonFormat : LatitudeLongitudeFormat
  m_utmConversionMode : UtmConversionMode
deriving DecidableEq

namespace CoordinateConversionOptions

/-- Modelled from the spec: the header with the member initializers is not
under `src/`; the defaults are taken from the spec and the in-file property
documentation: `outputMode` defaults to Usng, `precision` to 8,
`decimalPlaces` to 6, `mgrsConversionMode` to Automatic, `latLonFormat` to
DecimalDegrees, `utmConversionMode` to LatitudeBandIndicators; `name` is a
default-constructed (empty) QString. The spec does not state a default for
`addSpaces`; the value chosen here is not relied on by any theorem. -/
def defaultOptions : CoordinateConversionOptions :=
  { m_outputMode := CoordinateType.Usng
    m_name := ""
    m_addSpaces := true
    m_precision := 8
    m_decimalPlaces := 6
    m_mgrsConversionMode := MgrsConversionMode.Automatic
    m_latLonFormat := LatitudeLongitudeFormat.DecimalDegrees
    m_utmConversionMode := UtmConversionMode.LatitudeBandIndicators }

/-- Getter `outputMode() const` (source line 114). -/
def outputMode (s : CoordinateConversionOptions) : CoordinateType :=
  s.m_outputMode

/-- Setter `setOutputMode` (source lines 119-123): stores the value and
emits `outputModeChanged`. -/
def setOutputMode (s : CoordinateConversionOptions) (v : CoordinateType) :
    CoordinateConversionOptions × List Signal :=
  ({ s with m_outputMode := v }, [Signal.outputModeChanged])

/-- Getter `name() const` (source line 129). -/
def name (s : CoordinateConversionOptions) : String :=
  s.m_name

/-- Setter `setName` (source lines 134-138). -/
def setName (s : CoordinateConversionOptions) (v : String) :
    CoordinateConversionOptions × List Signal :=
  ({ s with m_name := v }, [Signal.nameChanged])

/-- Getter `addSpaces() const` (source line 146). -/
def addSpaces (s : CoordinateConversionOptions) : Bool :=
  s.m_addSpaces

/-- Setter `setAddSpaces` (source lines 151-155). -/
def setAddSpaces (s : CoordinateConversionOptions) (v : Bool) :
    CoordinateConversionOptions × List Signal :=
  ({ s with m_addSpaces := v }, [Signal.addSpacesChanged])

/-- Getter `precision() const` (source line 180). -/
def precision (s : CoordinateConversionOptions) : Int :=
  s.m_precision

/-- Setter `setPrecision` (source lines 185-189): no validation, no
clamping, stores the `int` argument as given. -/
def setPrecision (s : CoordinateConversionOptions) (v : Int) :
    CoordinateConversionOptions × List Signal :=
  ({ s with m_precision := v }, [Signal.precisionChanged])

/-- Getter `decimalPlaces() const` (source line 198). -/
def decimalPlaces (s : CoordinateConversionOptions) : Int :=
  s.m_decimalPlaces

/-- Setter `setDecimalPlaces` (source lines 203-207). -/
def setDecimalPlaces (s : CoordinateConversionOptions) (v : Int) :
    CoordinateConversionOptions × List Signal :=
  ({ s with m_decimalPlaces := v }, [Signal.decimalPlacesChanged])

/-- Getter `mgrsConversionMode() const` (source line 216). -/
def mgrsConversionMode (s : CoordinateConversionOptions) : MgrsConversionMode :=
  s.m_mgrsConversionMode

/-- Setter `setMgrsConversionMode` (source lines 221-225). -/
def setMgrsConversionMode (s : CoordinateConversionOptions) (v : MgrsConversionMode) :
    CoordinateConversionOptions × List Signal :=
  ({ s with m_mgrsConversionMode := v }, [Signal.mgrsConversionModeChanged])

/-- Getter `latLonFormat() const` (source line 234). -/
def latLonFormat (s : CoordinateConversionOptions) : LatitudeLongitudeFormat :=
  s.m_latLonFormat

/-- Setter `setLatLonFormat` (source lines 239-243). -/
def setLatLonFormat (s : CoordinateConversionOptions) (v : LatitudeLongitudeFormat) :
    CoordinateConversionOptions × List Signal :=
  ({ s with m_latLonFormat := v }, [Signal.latLonFormatChanged])

/-- Getter `utmConversionMode() const` (source line 252). -/
def utmConversionMode (s : CoordinateConversionOptions) : UtmConversionMode :=
  s.m_utmConversionMode

/-- Setter `setUtmConversionMode` (source lines 257-261). -/
def setUtmConversionMode (s : CoordinateConversionOptions) (v : UtmConversionMode) :
    CoordinateConversionOptions × List Signal :=
  ({ s with m_utmConversionMode := v }, [Signal.utmConversionModeChanged])

end CoordinateConversionOptions

/-- The file-static string constant `s_gars` (source line 86). -/
def s_gars : String := "Gars"

/-- The file-static string constant `s_georef` (source line 87). -/
def s_georef : String := "GeoRef"

/-- The file-static string constant `s_latlon` (source line 88). -/
def s_latlon : String := "LatLon"

/-- The file-static string constant `s_mgrs` (source line 89). -/
def s_mgrs : String := "Mgrs"

/-- The file-static string constant `s_usng` (source line 90). -/
def s_usng : String := "Usng"

/-- The file-static string constant `s_utm` (source line 91). -/
def s_utm : String := "Utm"

namespace CoordinateConversionOptions

/-- `stringToCoordinateType` (source lines 298-314): a chain of exact,
case-sensitive QString comparisons against the six canonical names, falling
through to `CoordinateTypeLatLon`. It is a `const` member function that does
not read the instance state; the unused instance argument is kept. -/
def stringToCoordinateType (_opts : CoordinateConversionOptions)
    (type : String) : CoordinateType :=
  if type = s_gars then CoordinateType.Gars
  else if type = s_georef then CoordinateType.GeoRef
  else if type = s_latlon then CoordinateType.LatLon
  else if type = s_mgrs then CoordinateType.Mgrs
  else if type = s_usng then CoordinateType.Usng
  else if type = s_utm then CoordinateType.Utm
  else CoordinateType.LatLon

/-- `coordinateTypeToString` (source lines 319-339): a switch over the six
enumerators; the `default` branch returns a default-constructed (empty)
QString. On the Lean enum the type is closed, so the switch is total; see
`coordinateTypeToStringRaw` for the model of the underlying-value switch. -/
def coordinateTypeToString (_opts : CoordinateConversionOptions)
    (type : CoordinateType) : String :=
  match type with
  | CoordinateType.Gars => s_gars
  | CoordinateType.GeoRef => s_georef
  | CoordinateType.LatLon => s_latlon
  | CoordinateType.Mgrs => s_mgrs
  | CoordinateType.Usng => s_usng
  | CoordinateType.Utm => s_utm

/-- Modelled from the spec: the header declaring the `CoordinateType` C++
enum is not under `src/`, so the numeric enumerator values are not visible;
the enumerators are listed in the source documentation in the order Gars,
GeoRef, LatLon, Mgrs, Usng, Utm, and the underlying values follow the C++
default consecutive numbering from 0. -/
def coordinateTypeUnderlying (t : CoordinateType) : Int :=
  match t with
  | CoordinateType.Gars => 0
  | CoordinateType.GeoRef => 1
  | CoordinateType.LatLon => 2
  | CoordinateType.Mgrs => 3
  | CoordinateType.Usng => 4
  | CoordinateType.Utm => 5

/-- `coordinateTypeToString` viewed on the underlying integer of the C++
enum: the switch of source lines 321-336 matches the six enumerator values
and every other value falls into `default`, returning the empty string
(source line 338, `return QString()`). -/
def coordinateTypeToStringRaw (_opts : CoordinateConversionOptions)
    (type : Int) : String :=
  if type = coordinateTypeUnderlying CoordinateType.Gars then s_gars
  else if type = coordinateTypeUnderlying CoordinateType.GeoRef then s_georef
  else if type = coordinateTypeUnderlying CoordinateType.LatLon then s_latlon
  else if type = coordinateTypeUnderlying CoordinateType.Mgrs then s_mgrs
  else if type = coordinateTypeUnderlying CoordinateType.Usng then s_usng
  else if type = coordinateTypeUnderlying CoordinateType.Utm then s_utm
  else ""

/-- `coordinateTypeNames() const` (source lines 345-353): builds the list
of the six canonical strings, in declaration order, independent of the
instance state. -/
def coordinateTypeNames (_opts : CoordinateConversionOptions) : List String :=
  [s_gars, s_georef, s_latlon, s_mgrs, s_usng, s_utm]

end CoordinateConversionOptions

/-- A nullable pointer to a `CoordinateConversionOptions`; `none` models a
null pointer, which is what a default-constructed pointer element is
(`Inhabited` default of `Option` is `none`). -/
abbrev OptionsPtr : Type := Option CoordinateConversionOptions

/-- Modelled from the spec: `QList::value(index)` is Qt library code, not in
this repository; per the claim's description it returns the element at the
index when the index is within `[0, count)` and a default-constructed
element otherwise. -/
def qListValue {α : Type} [Inhabited α] (xs : List α) (i : Int) : α :=
  if h : 0 ≤ i ∧ i.toNat < xs.length then xs.get ⟨i.toNat, h.2⟩ else default

/-- Modelled from the spec: `CoordinateConversionController` is declared in
a header not under `src/`; the spec describes it as the owning collaborator
holding an ordered backing list of options, with mutation methods
`addOption` (append one) and `clearOptions` (clear all). -/
structure CoordinateConversionController where
  m_options : List OptionsPtr

namespace CoordinateConversionController

/-- Modelled from the spec: `addOption(instance)` appends the instance to
the controller's backing list. -/
def addOption (c : CoordinateConversionController) (value : OptionsPtr) :
    CoordinateConversionController :=
  { c with m_options := c.m_options ++ [value] }

/-- Modelled from the spec: `clearOptions()` clears the controller's
backing list. -/
def clearOptions (c : CoordinateConversionController) :
    CoordinateConversionController :=
  { c with m_options := [] }

end CoordinateConversionController

/-- The `QQmlListProperty` handed to the four static list callbacks: its
`object` is the owning controller and its `data` points at the controller's
backing `QList` (the casts at source lines 268, 276, 284, 292). -/
structure QQmlListPropertyModel where
  object : CoordinateConversionController
  data : List OptionsPtr

namespace CoordinateConversionOptions

/-- `listAppend` (source lines 266-269): forwards the value to the owning
controller's `addOption`. -/
def listAppend (property : QQmlListPropertyModel) (value : OptionsPtr) :
    QQmlListPropertyModel :=
  { property with object := property.object.addOption value }

/-- `listAt` (source lines 274-277): reads `value(index)` from the backing
list directly. -/
def listAt (property : QQmlListPropertyModel) (index : Int) : OptionsPtr :=
  qListValue property.data index

/-- `listCount` (source lines 282-285): reads `count()` from the backing
list directly. -/
def listCount (property : QQmlListPropertyModel) : Int :=
  (property.data.length : Int)

/-- `listClear` (source lines 290-293): forwards to the owning controller's
`clearOptions`. -/
def listClear (property : QQmlListPropertyModel) : QQmlListPropertyModel :=
  { property with object := property.object.clearOptions }

end CoordinateConversionOptions

end Toolkit

/-! ## Theorems settling the claims -/

namespace Toolkit

open CoordinateConversionOptions

/-- Claim C1: for every property of the options record and every value `v`,
the setter stores `v` unconditionally (no validation, no clamping) and the
getter then returns exactly `v`; in particular `setPrecision (-1)` and
`setPrecision 99` succeed and `precision` returns `-1` and `99`. -/
theorem set_then_get (s : CoordinateConversionOptions) :
    (∀ v, outputMode (setOutputMode s v).1 = v) ∧
    (∀ v, name (setName s v).1 = v) ∧
    (∀ v, addSpaces (setAddSpaces s v).1 = v) ∧
    (∀ v, precision (setPrecision s v).1 = v) ∧
    (∀ v, decimalPlaces (setDecimalPlaces s v).1 = v) ∧
    (∀ v, mgrsConversionMode (setMgrsConversionMode s v).1 = v) ∧
    (∀ v, latLonFormat (setLatLonFormat s v).1 = v) ∧
    (∀ v, utmConversionMode (setUtmConversionMode s v).1 = v) ∧
    precision (setPrecision s (-1)).1 = -1 ∧
    precision (setPrecision s 99).1 = 99 :=
  ⟨fun _ => rfl, fun _ => rfl, fun _ => rfl, fun _ => rfl, fun _ => rfl,
   fun _ => rfl, fun _ => rfl, fun _ => rfl, rfl, rfl⟩

/-- Claim C2: for every one of the six coordinate types,
`stringToCoordinateType` applied to `coordinateTypeToString` of it is the
identity (round-trip of the two helpers on the closed enum). -/
theorem stringToType_typeToString_roundtrip
    (opts : CoordinateConversionOptions) (t : CoordinateType) :
    stringToCoordinateType opts (coordinateTypeToString opts t) = t := by
  cases t <;> rfl

/-- Claim C3: `stringToCoordinateType` maps each of the six exact canonical
strings to the corresponding enum value, and maps every other string
(case variants included) to `LatLon` as a non-failing fallback. -/
theorem stringToType_exact_and_fallback (opts : CoordinateConversionOptions) :
    (stringToCoordinateType opts "Gars" = CoordinateType.Gars ∧
     stringToCoordinateType opts "GeoRef" = CoordinateType.GeoRef ∧
     stringToCoordinateType opts "LatLon" = CoordinateType.LatLon ∧
     stringToCoordinateType opts "Mgrs" = CoordinateType.Mgrs ∧
     stringToCoordinateType opts "Usng" = CoordinateType.Usng ∧
     stringToCoordinateType opts "Utm" = CoordinateType.Utm) ∧
    ∀ str : String, str ∉ [s_gars, s_georef, s_latlon, s_mgrs, s_usng, s_utm] →
      stringToCoordinateType opts str = CoordinateType.LatLon := by
  refine ⟨⟨rfl, rfl, rfl, rfl, rfl, rfl⟩, ?_⟩
  intro str h
  simp only [List.mem_cons, List.not_mem_nil, or_false, not_or] at h
  obtain ⟨h1, h2, h3, h4, h5, h6⟩ := h
  simp [stringToCoordinateType, h1, h2, h3, h4, h5, h6]

/-- Witness for C3: the unrecognized string "bogus" falls back to LatLon. -/
theorem stringToType_exact_and_fallback_witness :
    stringToCoordinateType defaultOptions "bogus" = CoordinateType.LatLon :=
  (stringToType_exact_and_fallback defaultOptions).2 "bogus" (by decide)

/-- Claim C4: `coordinateTypeToString` maps each of the six enum values to
its canonical string; on the underlying integer representation of the C++
enum, every value other than the six enumerators takes the `default` branch
and yields the empty string rather than signaling an error. -/
theorem typeToString_table_and_default (opts : CoordinateConversionOptions) :
    (coordinateTypeToString opts CoordinateType.Gars = "Gars" ∧
     coordinateTypeToString opts CoordinateType.GeoRef = "GeoRef" ∧
     coordinateTypeToString opts CoordinateType.LatLon = "LatLon" ∧
     coordinateTypeToString opts CoordinateType.Mgrs = "Mgrs" ∧
     coordinateTypeToString opts CoordinateType.Usng = "Usng" ∧
     coordinateTypeToString opts CoordinateType.Utm = "Utm") ∧
    (∀ t, coordinateTypeToStringRaw opts (coordinateTypeUnderlying t) =
       coordinateTypeToString opts t) ∧
    ∀ n : Int, (∀ t, coordinateTypeUnderlying t ≠ n) →
      coordinateTypeToStringRaw opts n = "" := by
  refine ⟨⟨rfl, rfl, rfl, rfl, rfl, rfl⟩, fun t => by cases t <;> rfl, ?_⟩
  intro n h
  unfold coordinateTypeToStringRaw
  rw [if_neg fun heq => h CoordinateType.Gars heq.symm,
      if_neg fun heq => h CoordinateType.GeoRef heq.symm,
      if_neg fun heq => h CoordinateType.LatLon heq.symm,
      if_neg fun heq => h CoordinateType.Mgrs heq.symm,
      if_neg fun heq => h CoordinateType.Usng heq.symm,
      if_neg fun heq => h CoordinateType.Utm heq.symm]

/-- Witness for C4: the out-of-enum underlying value 42 yields "". -/
theorem typeToString_table_and_default_witness :
    coordinateTypeToStringRaw defaultOptions 42 = "" :=
  (typeToString_table_and_default defaultOptions).2.2 42
    (by intro t; cases t <;> decide)

/-- Claim C5: `coordinateTypeNames` always returns exactly the six-element
list of canonical names, in declaration order, independent of the
instance's property state. -/
theorem coordinateTypeNames_fixed (opts : CoordinateConversionOptions) :
    coordinateTypeNames opts = ["Gars", "GeoRef", "LatLon", "Mgrs", "Usng", "Utm"] :=
  rfl

/-- Claim C6: every setter call emits exactly one change signal, the one
specific to its own property, unconditionally — also when the value being
set equals the currently stored value. -/
theorem setters_emit_one_signal (s : CoordinateConversionOptions) :
    (∀ v, (setOutputMode s v).2 = [Signal.outputModeChanged]) ∧
    (∀ v, (setName s v).2 = [Signal.nameChanged]) ∧
    (∀ v, (setAddSpaces s v).2 = [Signal.addSpacesChanged]) ∧
    (∀ v, (setPrecision s v).2 = [Signal.precisionChanged]) ∧
    (∀ v, (setDecimalPlaces s v).2 = [Signal.decimalPlacesChanged]) ∧
    (∀ v, (setMgrsConversionMode s v).2 = [Signal.mgrsConversionModeChanged]) ∧
    (∀ v, (setLatLonFormat s v).2 = [Signal.latLonFormatChanged]) ∧
    (∀ v, (setUtmConversionMode s v).2 = [Signal.utmConversionModeChanged]) ∧
    (setOutputMode s (outputMode s)).2 = [Signal.outputModeChanged] ∧
    (setPrecision s (precision s)).2 = [Signal.precisionChanged] :=
  ⟨fun _ => rfl, fun _ => rfl, fun _ => rfl, fun _ => rfl, fun _ => rfl,
   fun _ => rfl, fun _ => rfl, fun _ => rfl, rfl, rfl⟩

/-- Claim C7: every setter mutates only its own field — all seven other
fields are unchanged by the call; in particular setting `outputMode` to Utm
and back to Mgrs leaves previously set `mgrsConversionMode` and `precision`
intact. -/
theorem setters_frame (s : CoordinateConversionOptions) :
    (∀ v, name (setOutputMode s v).1 = name s ∧
       addSpaces (setOutputMode s v).1 = addSpaces s ∧
       precision (setOutputMode s v).1 = precision s ∧
       decimalPlaces (setOutputMode s v).1 = decimalPlaces s ∧
       mgrsConversionMode (setOutputMode s v).1 = mgrsConversionMode s ∧
       latLonFormat (setOutputMode s v).1 = latLonFormat s ∧
       utmConversionMode (setOutputMode s v).1 = utmConversionMode s) ∧
    (∀ v, outputMode (setName s v).1 = outputMode s ∧
       addSpaces (setName s v).1 = addSpaces s ∧
       precision (setName s v).1 = precision s ∧
       decimalPlaces (setName s v).1 = decimalPlaces s ∧
       mgrsConversionMode (setName s v).1 = mgrsConversionMode s ∧
       latLonFormat (setName s v).1 = latLonFormat s ∧
       utmConversionMode (setName s v).1 = utmConversionMode s) ∧
    (∀ v, outputMode (setAddSpaces s v).1 = outputMode s ∧
       name (setAddSpaces s v).1 = name s ∧
       precision (setAddSpaces s v).1 = precision s ∧
       decimalPlaces (setAddSpaces s v).1 = decimalPlaces s ∧
       mgrsConversionMode (setAddSpaces s v).1 = mgrsConversionMode s ∧
       latLonFormat (setAddSpaces s v).1 = latLonFormat s ∧
       utmConversionMode (setAddSpaces s v).1 = utmConversionMode s) ∧
    (∀ v, outputMode (setPrecision s v).1 = outputMode s ∧
       name (setPrecision s v).1 = name s ∧
       addSpaces (setPrecision s v).1 = addSpaces s ∧
       decimalPlaces (setPrecision s v).1 = decimalPlaces s ∧
       mgrsConversionMode (setPrecision s v).1 = mgrsConversionMode s ∧
       latLonFormat (setPrecision s v).1 = latLonFormat s ∧
       utmConversionMode (setPrecision s v).1 = utmConversionMode s) ∧
    (∀ v, outputMode (setDecimalPlaces s v).1 = outputMode s ∧
       name (setDecimalPlaces s v).1 = name s ∧
       addSpaces (setDecimalPlaces s v).1 = addSpaces s ∧
       precision (setDecimalPlaces s v).1 = precision s ∧
       mgrsConversionMode (setDecimalPlaces s v).1 = mgrsConversionMode s ∧
       latLonFormat (setDecimalPlaces s v).1 = latLonFormat s ∧
       utmConversionMode (setDecimalPlaces s v).1 = utmConversionMode s) ∧
    (∀ v, outputMode (setMgrsConversionMode s v).1 = outputMode s ∧
       name (setMgrsConversionMode s v).1 = name s ∧
       addSpaces (setMgrsConversionMode s v).1 = addSpaces s ∧
       precision (setMgrsConversionMode s v).1 = precision s ∧
       decimalPlaces (setMgrsConversionMode s v).1 = decimalPlaces s ∧
       latLonFormat (setMgrsConversionMode s v).1 = latLonFormat s ∧
       utmConversionMode (setMgrsConversionMode s v).1 = utmConversionMode s) ∧
    (∀ v, outputMode (setLatLonFormat s v).1 = outputMode s ∧
       name (setLatLonFormat s v).1 = name s ∧
       addSpaces (setLatLonFormat s v).1 = addSpaces s ∧
       precision (setLatLonFormat s v).1 = precision s ∧
       decimalPlaces (setLatLonFormat s v).1 = decimalPlaces s ∧
       mgrsConversionMode (setLatLonFormat s v).1 = mgrsConversionMode s ∧
       utmConversionMode (setLatLonFormat s v).1 = utmConversionMode s) ∧
    (∀ v, outputMode (setUtmConversionMode s v).1 = outputMode s ∧
       name (setUtmConversionMode s v).1 = name s ∧
       addSpaces (setUtmConversionMode s v).1 = addSpaces s ∧
       precision (setUtmConversionMode s v).1 = precision s ∧
       decimalPlaces (setUtmConversionMode s v).1 = decimalPlaces s ∧
       mgrsConversionMode (setUtmConversionMode s v).1 = mgrsConversionMode s ∧
       latLonFormat (setUtmConversionMode s v).1 = latLonFormat s) ∧
    (mgrsConversionMode
       (setOutputMode (setOutputMode s CoordinateType.Utm).1 CoordinateType.Mgrs).1 =
       mgrsConversionMode s ∧
     precision
       (setOutputMode (setOutputMode s CoordinateType.Utm).1 CoordinateType.Mgrs).1 =
       precision s ∧
     outputMode
       (setOutputMode (setOutputMode s CoordinateType.Utm).1 CoordinateType.Mgrs).1 =
       CoordinateType.Mgrs) :=
  ⟨fun _ => ⟨rfl, rfl, rfl, rfl, rfl, rfl, rfl⟩,
   fun _ => ⟨rfl, rfl, rfl, rfl, rfl, rfl, rfl⟩,
   fun _ => ⟨rfl, rfl, rfl, rfl, rfl, rfl, rfl⟩,
   fun _ => ⟨rfl, rfl, rfl, rfl, rfl, rfl, rfl⟩,
   fun _ => ⟨rfl, rfl, rfl, rfl, rfl, rfl, rfl⟩,
   fun _ => ⟨rfl, rfl, rfl, rfl, rfl, rfl, rfl⟩,
   fun _ => ⟨rfl, rfl, rfl, rfl, rfl, rfl, rfl⟩,
   fun _ => ⟨rfl, rfl, rfl, rfl, rfl, rfl, rfl⟩,
   rfl, rfl, rfl⟩

/-- Claim C8: on a freshly constructed instance, before any setter is
called, `outputMode` returns Usng. -/
theorem defaultOptions_outputMode :
    outputMode defaultOptions = CoordinateType.Usng :=
  rfl

/-- Claim C9: `listAppend` forwards its value to the owning controller's
`addOption` and `listClear` forwards to the controller's `clearOptions`
(neither touches the backing-list pointer), while `listCount` returns the
element count of the backing list and `listAt` returns the backing list's
element at an in-range index, without going through the controller. -/
theorem list_callbacks_spec :
    (∀ (p : QQmlListPropertyModel) (v : OptionsPtr),
       (listAppend p v).object = p.object.addOption v ∧
       (listAppend p v).data = p.data) ∧
    (∀ p : QQmlListPropertyModel,
       (listClear p).object = p.object.clearOptions ∧
       (listClear p).data = p.data) ∧
    (∀ p : QQmlListPropertyModel, listCount p = (p.data.length : Int)) ∧
    ∀ (p : QQmlListPropertyModel) (i : Nat) (h : i < p.data.length),
      listAt p (i : Int) = p.data.get ⟨i, h⟩ := by
  refine ⟨fun p v => ⟨rfl, rfl⟩, fun p => ⟨rfl, rfl⟩, fun p => rfl, ?_⟩
  intro p i h
  unfold listAt qListValue
  rw [dif_pos ⟨Int.ofNat_nonneg i, by simpa using h⟩]
  simp

/-- Witness for C9: reading index 0 from a one-element backing list returns
that element. -/
theorem list_callbacks_spec_witness :
    listAt ⟨⟨[]⟩, [some defaultOptions]⟩ ((0 : Nat) : Int) = some defaultOptions :=
  list_callbacks_spec.2.2.2 ⟨⟨[]⟩, [some defaultOptions]⟩ 0 (by decide)

/-- Claim C10: `listAt` is total in its index — for any index outside
`[0, count)` it returns the null pointer (the backing list's `value` returns
a default-constructed element out of range) rather than aborting. -/
theorem listAt_total_out_of_range (p : QQmlListPropertyModel) (i : Int)
    (h : i < 0 ∨ (p.data.length : Int) ≤ i) :
    listAt p i = (none : OptionsPtr) := by
  unfold listAt qListValue
  rw [dif_neg]
  · rfl
  · rintro ⟨h1, h2⟩
    omega

/-- Witness for C10: index 5 on an empty backing list yields the null
pointer. -/
theorem listAt_total_out_of_range_witness :
    listAt ⟨⟨[]⟩, []⟩ 5 = (none : OptionsPtr) :=
  listAt_total_out_of_range ⟨⟨[]⟩, []⟩ 5 (by decide)

end Toolkit
